import Mathlib

/-!
Shallow embedding of the orchestration core of `src/src/agents/orchestrator.py`
(multi-agent code assistant).  Python strings are modelled by Lean `String`
(logically a list of characters); `str.lower()` / `str.upper()` are modelled
per character with `Char.toLower` / `Char.toUpper` (ASCII, as in the source's
usage); the Python substring test `w in q` is modelled by `pyContains`.
Fallible calls (backend agents, the synthesis LLM call) are modelled as
`String → Except String String`: `Except.error e` stands for a raised
exception with message `e`.  The LangGraph workflow is modelled by the graph
structure `CompiledGraph` (built exactly from the `add_node` / `add_edge` /
`add_conditional_edges` calls of `create_orchestrator_agent`) plus a small
fuel-based interpreter `stream` that mirrors `orchestrator.stream`:
it executes a node, emits one `(node_name, node_output)` event, and follows
the graph's edges until `END`.  Wall-clock measurement is abstracted by an
oracle `node_dur : String → ℚ` giving the measured duration of each node
event, a separate `total_elapsed` for the overall run, and a `total_fmt`
string standing for the Python-formatted `f"{total:.1f}"` text.
The nondeterministic completion order of `as_completed` over the two
parallel futures is abstracted by a boolean `doc_first`.
-/

namespace Orchestrator

/-- Python `str.lower()`, applied per character (ASCII range only, exactly
the range `Char.toLower` handles). -/
def pyLower (s : String) : String := ⟨s.data.map Char.toLower⟩

/-- Python `str.upper()`, applied per character. -/
def pyUpper (s : String) : String := ⟨s.data.map Char.toUpper⟩

/-- Python substring test `sub in s` (contiguous substring). -/
def pyContains (s sub : String) : Bool := decide (sub.data <:+: s.data)

/-- LangChain message, tagged by role, content only (model of
`HumanMessage` / `AIMessage` / `SystemMessage`). -/
inductive Message where
  | human (content : String)
  | ai (content : String)
  | system (content : String)
  deriving DecidableEq, Repr

/-- The `OrchestratorState` TypedDict of the source, with the same fields. -/
structure OrchestratorState where
  messages : List Message
  query : String
  doc_results : String
  code_results : String
  final_response : String
  agents_to_call : List String
  deriving DecidableEq, Repr

/-- Keyword set for `needs_docs` in `analyze_query` (source lines 93-96). -/
def doc_keywords : List String :=
  ["how", "what", "why", "explain", "concept", "best practice",
   "documentation", "tutorial", "guide", "learn"]

/-- Keyword set for `needs_code` in `analyze_query` (source lines 98-104). -/
def code_keywords : List String :=
  ["code", "example", "snippet", "implement", "show me",
   "sample", "function", "class", "script",
   "database", "oracle", "connect", "sql", "query", "table",
   "insert", "select", "python", "java", "fastapi", "langchain"]

/-- The classifier at the heart of the `analyze_query` node (source lines
84-118): lower-case the query, test substring membership against the two
keyword lists, default to both agents when neither matched, then append
`"doc_search"` and/or `"code_query"`. -/
def analyze_query (query : String) : List String :=
  let q := pyLower query
  let needs_docs := doc_keywords.any (fun word => pyContains q word)
  let needs_code := code_keywords.any (fun word => pyContains q word)
  let needs_docs2 := if !needs_docs && !needs_code then true else needs_docs
  let needs_code2 := if !needs_docs && !needs_code then true else needs_code
  (if needs_docs2 then ["doc_search"] else []) ++
    (if needs_code2 then ["code_query"] else [])

/-- The `analyze` graph node: writes `agents_to_call` into the state. -/
def analyze_node (state : OrchestratorState) : OrchestratorState :=
  { state with agents_to_call := analyze_query state.query }

/-- The `doc_search` single-agent node (source lines 169-179): calls
`search_docs(query)` with no try/except, so a raised exception propagates. -/
def call_doc_search (search_docs : String → Except String String)
    (state : OrchestratorState) : Except String OrchestratorState := do
  let result ← search_docs state.query
  return { state with doc_results := result }

/-- The `code_query` single-agent node (source lines 181-191): calls
`query_code_snippets(query)` with no try/except. -/
def call_code_query (query_code_snippets : String → Except String String)
    (state : OrchestratorState) : Except String OrchestratorState := do
  let result ← query_code_snippets state.query
  return { state with code_results := result }

/-- The `parallel` node (source lines 120-167).  Futures are submitted for
exactly the agents present in `agents_to_call`; the `as_completed` loop is
modelled as a fold over the submitted futures in an order chosen by
`doc_first`.  A successful future stores its result into the matching local
variable; an exception is caught and recorded only as a span attribute
`"<agent>.error"` (returned here as the second component), leaving the
result variable at its initial `""`.  The node returns
`{"doc_results": ..., "code_results": ...}`. -/
def call_agents_parallel (search_docs query_code_snippets : String → Except String String)
    (doc_first : Bool) (state : OrchestratorState) :
    OrchestratorState × List (String × String) :=
  let query := state.query
  let agents_to_call := state.agents_to_call
  let futures :=
    (if "doc_search" ∈ agents_to_call then ["doc_search"] else []) ++
      (if "code_query" ∈ agents_to_call then ["code_query"] else [])
  let completion_order := if doc_first then futures else futures.reverse
  let handle := fun (acc : String × String × List (String × String)) (agent_name : String) =>
    match (if agent_name = "doc_search" then search_docs query
           else query_code_snippets query) with
    | .ok result =>
        if agent_name = "doc_search" then (result, acc.2.1, acc.2.2)
        else (acc.1, result, acc.2.2)
    | .error e => (acc.1, acc.2.1, acc.2.2 ++ [(agent_name ++ ".error", e)])
  let r := completion_order.foldl handle ("", "", [])
  ({ state with doc_results := r.1, code_results := r.2.1 }, r.2.2)

/-- The synthesis prompt built by `combine_results` (source lines 201-218):
a Python f-string in which an empty (falsy) `doc_results` / `code_results`
renders as a fixed placeholder. -/
def synthesis_prompt (query doc_results code_results : String) : String :=
  "Based on the user\x27s question and the gathered information, provide a comprehensive answer.\n\n**User Question:** "
    ++ query
    ++ "\n\n**Documentation/Explanation:**\n"
    ++ (if doc_results = "" then "No documentation found." else doc_results)
    ++ "\n\n**Code Examples:**\n"
    ++ (if code_results = "" then "No code examples found." else code_results)
    ++ "\n\n**Your Task:**\nSynthesize this information into a clear, helpful response that:\n1. Explains the concept briefly (if docs available)\n2. Shows relevant code examples (if code available)\n3. Provides practical tips\n4. Is well-formatted with headers and code blocks\n\nKeep it concise but complete."

/-- The `combine` node (source lines 193-232): builds the synthesis prompt,
issues exactly one LLM call on it (which may raise — fatal to the run), and
writes `final_response` plus one appended `AIMessage`. -/
def combine_results (llm_invoke : String → Except String String)
    (state : OrchestratorState) : Except String OrchestratorState := do
  let prompt := synthesis_prompt state.query state.doc_results state.code_results
  let response ← llm_invoke prompt
  return { state with
            final_response := response
            messages := state.messages ++ [Message.ai response] }

/-- The conditional router (source lines 234-246): empty decision goes to
`combine`, a two-element decision to `parallel`, otherwise `agents[0]`. -/
def route_to_agents (state : OrchestratorState) : String :=
  match state.agents_to_call with
  | [] => "combine"
  | a :: rest => if (a :: rest).length = 2 then "parallel" else a

/-- LangGraph's terminal pseudo-node `END`. -/
def END : String := "__end__"

/-- The static shape of the compiled workflow graph. -/
structure CompiledGraph where
  entry_point : String
  conditional_source : String
  conditional_mapping : List (String × String)
  edges : List (String × String)
  deriving DecidableEq, Repr

/-- The graph built by `create_orchestrator_agent` (source lines 248-281):
entry point `analyze`, conditional edges out of `analyze` keyed by
`route_to_agents`, and unconditional edges from every agent node to
`combine` and from `combine` to `END`. -/
def create_orchestrator_agent : CompiledGraph :=
  { entry_point := "analyze"
    conditional_source := "analyze"
    conditional_mapping :=
      [("parallel", "parallel"), ("doc_search", "doc_search"),
       ("code_query", "code_query"), ("combine", "combine")]
    edges :=
      [("parallel", "combine"), ("doc_search", "combine"),
       ("code_query", "combine"), ("combine", END)] }

/-- The process-wide cache `_cached_orchestrator` (source lines 284-293),
modelled by explicit state passing: `get_orchestrator_agent` takes the
current cache content and returns the graph handed to the caller together
with the new cache content. -/
def get_orchestrator_agent (cached : Option CompiledGraph) :
    CompiledGraph × Option CompiledGraph :=
  match cached with
  | none => (create_orchestrator_agent, some create_orchestrator_agent)
  | some g => (g, some g)

/-- Iterate `get_orchestrator_agent` n times, threading the cache. -/
def get_calls : Nat → Option CompiledGraph → Option CompiledGraph
  | 0, cached => cached
  | n + 1, cached => get_calls n (get_orchestrator_agent cached).2

/-- The external collaborators of one run: the two backend agents, the
synthesis LLM call, and the abstracted completion order of the two parallel
futures. -/
structure Backends where
  search_docs : String → Except String String
  query_code_snippets : String → Except String String
  llm_invoke : String → Except String String
  doc_first : Bool

/-- Execute one named graph node on a state. -/
def run_node (b : Backends) (name : String) (state : OrchestratorState) :
    Except String OrchestratorState :=
  if name = "analyze" then .ok (analyze_node state)
  else if name = "parallel" then
    .ok (call_agents_parallel b.search_docs b.query_code_snippets b.doc_first state).1
  else if name = "doc_search" then call_doc_search b.search_docs state
  else if name = "code_query" then call_code_query b.query_code_snippets state
  else if name = "combine" then combine_results b.llm_invoke state
  else .error "unknown node"

/-- Interpreter for `orchestrator.stream(initial_state)`: run the current
node, emit one `(node_name, node_output)` event, follow the conditional
edge out of `analyze` (keyed by `route_to_agents`) or the unconditional
edge otherwise, and stop at `END`.  A node exception aborts the stream and
propagates.  Fuel bounds the (acyclic, length-3) path. -/
def stream (b : Backends) :
    Nat → String → OrchestratorState →
      Except String (List (String × OrchestratorState))
  | 0, _, _ => .error "recursion limit"
  | fuel + 1, name, state => do
      let state2 ← run_node b name state
      let next :=
        if name = create_orchestrator_agent.conditional_source then
          create_orchestrator_agent.conditional_mapping.lookup (route_to_agents state2)
        else
          create_orchestrator_agent.edges.lookup name
      match next with
      | none => .error "no edge"
      | some n =>
          if n = END then return [(name, state2)]
          else do
            let rest ← stream b fuel n state2
            return (name, state2) :: rest

/-- The per-run timing dictionary (source lines 308-314). -/
structure Timing where
  orchestrator_analyze : ℚ
  doc_search : ℚ
  code_query : ℚ
  combine : ℚ
  total : ℚ
  deriving DecidableEq, Repr

/-- The timing / status-callback bookkeeping done for one stream event in
`ask_assistant` (source lines 340-382): `node_dur` is the wall-clock oracle
for the measured duration of this node event. -/
def process_event (node_dur : String → ℚ)
    (acc : Timing × List (String × String × String))
    (ev : String × OrchestratorState) :
    Timing × List (String × String × String) :=
  let name := ev.1
  let out := ev.2
  let d := node_dur name
  if name = "analyze" then
    ({ acc.1 with orchestrator_analyze := d },
     acc.2 ++ [("Orchestrator", "routing",
       "Will query: " ++
         (if out.agents_to_call = [] then "combining results"
          else String.intercalate ", " out.agents_to_call))])
  else if name = "parallel" then
    ({ acc.1 with doc_search := d / 2, code_query := d / 2 },
     acc.2 ++ [("Doc Search Agent", "running", "Searching documentation..."),
               ("Code Query Agent", "running", "Querying code snippets..."),
               ("Doc Search Agent", "complete", "Documentation retrieved"),
               ("Code Query Agent", "complete", "Code snippets retrieved")])
  else if name = "doc_search" then
    ({ acc.1 with doc_search := d },
     acc.2 ++ [("Doc Search Agent", "running", "Searching documentation..."),
               ("Doc Search Agent", "complete", "Documentation retrieved")])
  else if name = "code_query" then
    ({ acc.1 with code_query := d },
     acc.2 ++ [("Code Query Agent", "running", "Querying code snippets..."),
               ("Code Query Agent", "complete", "Code snippets retrieved")])
  else if name = "combine" then
    ({ acc.1 with combine := d },
     acc.2 ++ [("Orchestrator", "combining", "Synthesizing response...")])
  else acc

/-- Result of one `ask_assistant` run: the returned `response`, the
returned `timing`, and the full sequence of status-callback events the
observer received, in order. -/
structure AskResult where
  response : String
  timing : Timing
  events : List (String × String × String)
  deriving DecidableEq, Repr

/-- The initial state of one run (source lines 327-334). -/
def initial_state (query : String) : OrchestratorState :=
  { messages := [Message.human query], query := query, doc_results := "",
    code_results := "", final_response := "", agents_to_call := [] }

/-- The run entry point `ask_assistant` (source lines 296-397).
`total_elapsed` is the wall-clock total and `total_fmt` the Python
`f"{total:.1f}"` rendering of it (formatting abstracted).  A node exception
(for example a backend exception on the single-agent path) propagates as
`Except.error`; on success the final state is the last streamed event's
output, and the response falls back to a fixed apology when absent. -/
def ask_assistant (b : Backends) (node_dur : String → ℚ)
    (total_elapsed : ℚ) (total_fmt : String) (query : String) :
    Except String AskResult := do
  let timing0 : Timing :=
    { orchestrator_analyze := 0, doc_search := 0, code_query := 0,
      combine := 0, total := 0 }
  let events0 := [("Orchestrator", "analyzing", "Analyzing query...")]
  let evs ← stream b 10 create_orchestrator_agent.entry_point (initial_state query)
  let folded := evs.foldl (process_event node_dur) (timing0, events0)
  let timing := { folded.1 with total := total_elapsed }
  let response :=
    match evs.getLast? with
    | some last => last.2.final_response
    | none => "Sorry, I couldn\x27t find an answer."
  let events :=
    folded.2 ++ [("Orchestrator", "complete",
      "Response generated in " ++ total_fmt ++ "s")]
  return { response := response, timing := timing, events := events }

/-! ### Helper lemmas -/

theorem char_toLower_toUpper (c : Char) : c.toUpper.toLower = c.toLower := by
  by_cases h : c.toNat ≥ 97 ∧ c.toNat ≤ 122
  · obtain ⟨h1, h2⟩ := h
    have hc : Char.ofNat c.toNat = c := Char.ofNat_toNat c
    revert h1 h2 hc
    generalize c.toNat = n
    intro h1 h2 hc
    subst hc
    interval_cases n <;> decide
  · have hu : c.toUpper = c := by
      unfold Char.toUpper
      simp only [ge_iff_le]
      rw [if_neg]
      intro hcon
      exact h ⟨hcon.1, hcon.2⟩
    rw [hu]

theorem pyLower_pyUpper (s : String) : pyLower (pyUpper s) = pyLower s := by
  unfold pyLower pyUpper
  have hmap : (Char.toLower ∘ Char.toUpper) = Char.toLower := funext char_toLower_toUpper
  show String.mk ((s.data.map Char.toUpper).map Char.toLower)
      = String.mk (s.data.map Char.toLower)
  rw [List.map_map, hmap]

theorem call_agents_parallel_query (sd qc : String → Except String String)
    (doc_first : Bool) (st : OrchestratorState) :
    (call_agents_parallel sd qc doc_first st).1.query = st.query := rfl

theorem ask_assistant_both (sd qc : String → Except String String) (llm : String → String)
    (doc_first : Bool) (nd : String → ℚ) (te : ℚ) (fmt : String) (q : String)
    (h : analyze_query q = ["doc_search", "code_query"]) :
    ask_assistant ⟨sd, qc, fun p => .ok (llm p), doc_first⟩ nd te fmt q =
    .ok { response := llm (synthesis_prompt q
            ((call_agents_parallel sd qc doc_first
              { messages := [Message.human q], query := q, doc_results := "",
                code_results := "", final_response := "",
                agents_to_call := ["doc_search", "code_query"] }).1.doc_results)
            ((call_agents_parallel sd qc doc_first
              { messages := [Message.human q], query := q, doc_results := "",
                code_results := "", final_response := "",
                agents_to_call := ["doc_search", "code_query"] }).1.code_results)),
          timing := { orchestrator_analyze := nd "analyze",
                      doc_search := nd "parallel" / 2, code_query := nd "parallel" / 2,
                      combine := nd "combine", total := te },
          events := [("Orchestrator", "analyzing", "Analyzing query..."),
            ("Orchestrator", "routing", "Will query: doc_search, code_query"),
            ("Doc Search Agent", "running", "Searching documentation..."),
            ("Code Query Agent", "running", "Querying code snippets..."),
            ("Doc Search Agent", "complete", "Documentation retrieved"),
            ("Code Query Agent", "complete", "Code snippets retrieved"),
            ("Orchestrator", "combining", "Synthesizing response..."),
            ("Orchestrator", "complete", "Response generated in " ++ fmt ++ "s")] } := by
  simp [ask_assistant, stream, run_node, analyze_node, create_orchestrator_agent, END,
    route_to_agents, h, combine_results, List.lookup, Bind.bind, Except.bind,
    Pure.pure, Except.pure, initial_state, process_event, String.intercalate,
    String.intercalate.go, call_agents_parallel_query]

theorem ask_assistant_doc_only (sd qc : String → Except String String) (llm : String → String)
    (doc_first : Bool) (nd : String → ℚ) (te : ℚ) (fmt : String) (q rd : String)
    (h : analyze_query q = ["doc_search"]) (hd : sd q = .ok rd) :
    ask_assistant ⟨sd, qc, fun p => .ok (llm p), doc_first⟩ nd te fmt q =
    .ok { response := llm (synthesis_prompt q rd ""),
          timing := { orchestrator_analyze := nd "analyze",
                      doc_search := nd "doc_search", code_query := 0,
                      combine := nd "combine", total := te },
          events := [("Orchestrator", "analyzing", "Analyzing query..."),
            ("Orchestrator", "routing", "Will query: doc_search"),
            ("Doc Search Agent", "running", "Searching documentation..."),
            ("Doc Search Agent", "complete", "Documentation retrieved"),
            ("Orchestrator", "combining", "Synthesizing response..."),
            ("Orchestrator", "complete", "Response generated in " ++ fmt ++ "s")] } := by
  simp [ask_assistant, stream, run_node, analyze_node, create_orchestrator_agent, END,
    route_to_agents, h, hd, combine_results, call_doc_search, List.lookup, Bind.bind,
    Except.bind, Pure.pure, Except.pure, initial_state, process_event, String.intercalate,
    String.intercalate.go, call_agents_parallel_query]

theorem ask_assistant_code_only (sd qc : String → Except String String) (llm : String → String)
    (doc_first : Bool) (nd : String → ℚ) (te : ℚ) (fmt : String) (q rc : String)
    (h : analyze_query q = ["code_query"]) (hc : qc q = .ok rc) :
    ask_assistant ⟨sd, qc, fun p => .ok (llm p), doc_first⟩ nd te fmt q =
    .ok { response := llm (synthesis_prompt q "" rc),
          timing := { orchestrator_analyze := nd "analyze",
                      doc_search := 0, code_query := nd "code_query",
                      combine := nd "combine", total := te },
          events := [("Orchestrator", "analyzing", "Analyzing query..."),
            ("Orchestrator", "routing", "Will query: code_query"),
            ("Code Query Agent", "running", "Querying code snippets..."),
            ("Code Query Agent", "complete", "Code snippets retrieved"),
            ("Orchestrator", "combining", "Synthesizing response..."),
            ("Orchestrator", "complete", "Response generated in " ++ fmt ++ "s")] } := by
  simp [ask_assistant, stream, run_node, analyze_node, create_orchestrator_agent, END,
    route_to_agents, h, hc, combine_results, call_code_query, List.lookup, Bind.bind,
    Except.bind, Pure.pure, Except.pure, initial_state, process_event, String.intercalate,
    String.intercalate.go, call_agents_parallel_query]

theorem ask_assistant_doc_error (sd qc llm : String → Except String String)
    (doc_first : Bool) (nd : String → ℚ) (te : ℚ) (fmt : String) (q e : String)
    (h : analyze_query q = ["doc_search"]) (hd : sd q = .error e) :
    ask_assistant ⟨sd, qc, llm, doc_first⟩ nd te fmt q = .error e := by
  simp [ask_assistant, stream, run_node, analyze_node, create_orchestrator_agent, END,
    route_to_agents, h, hd, call_doc_search, List.lookup, Bind.bind,
    Except.bind, Pure.pure, Except.pure, initial_state]

theorem ask_assistant_code_error (sd qc llm : String → Except String String)
    (doc_first : Bool) (nd : String → ℚ) (te : ℚ) (fmt : String) (q e : String)
    (h : analyze_query q = ["code_query"]) (hc : qc q = .error e) :
    ask_assistant ⟨sd, qc, llm, doc_first⟩ nd te fmt q = .error e := by
  simp [ask_assistant, stream, run_node, analyze_node, create_orchestrator_agent, END,
    route_to_agents, h, hc, call_code_query, List.lookup, Bind.bind,
    Except.bind, Pure.pure, Except.pure, initial_state]

theorem ask_assistant_both_llm (sd qc llm : String → Except String String)
    (doc_first : Bool) (nd : String → ℚ) (te : ℚ) (fmt : String) (q : String)
    (h : analyze_query q = ["doc_search", "code_query"]) :
    ask_assistant ⟨sd, qc, llm, doc_first⟩ nd te fmt q =
    match llm (synthesis_prompt q
        ((call_agents_parallel sd qc doc_first
          { messages := [Message.human q], query := q, doc_results := "",
            code_results := "", final_response := "",
            agents_to_call := ["doc_search", "code_query"] }).1.doc_results)
        ((call_agents_parallel sd qc doc_first
          { messages := [Message.human q], query := q, doc_results := "",
            code_results := "", final_response := "",
            agents_to_call := ["doc_search", "code_query"] }).1.code_results)) with
    | .error e => .error e
    | .ok resp =>
        .ok { response := resp,
              timing := { orchestrator_analyze := nd "analyze",
                          doc_search := nd "parallel" / 2, code_query := nd "parallel" / 2,
                          combine := nd "combine", total := te },
              events := [("Orchestrator", "analyzing", "Analyzing query..."),
                ("Orchestrator", "routing", "Will query: doc_search, code_query"),
                ("Doc Search Agent", "running", "Searching documentation..."),
                ("Code Query Agent", "running", "Querying code snippets..."),
                ("Doc Search Agent", "complete", "Documentation retrieved"),
                ("Code Query Agent", "complete", "Code snippets retrieved"),
                ("Orchestrator", "combining", "Synthesizing response..."),
                ("Orchestrator", "complete", "Response generated in " ++ fmt ++ "s")] } := by
  cases hl : llm (synthesis_prompt q
      ((call_agents_parallel sd qc doc_first
        { messages := [Message.human q], query := q, doc_results := "",
          code_results := "", final_response := "",
          agents_to_call := ["doc_search", "code_query"] }).1.doc_results)
      ((call_agents_parallel sd qc doc_first
        { messages := [Message.human q], query := q, doc_results := "",
          code_results := "", final_response := "",
          agents_to_call := ["doc_search", "code_query"] }).1.code_results)) <;>
    simp [ask_assistant, stream, run_node, analyze_node, create_orchestrator_agent, END,
      route_to_agents, h, hl, combine_results, List.lookup, Bind.bind, Except.bind,
      Pure.pure, Except.pure, initial_state, process_event, String.intercalate,
      String.intercalate.go, call_agents_parallel_query]

theorem ask_assistant_doc_only_llm (sd qc llm : String → Except String String)
    (doc_first : Bool) (nd : String → ℚ) (te : ℚ) (fmt : String) (q rd : String)
    (h : analyze_query q = ["doc_search"]) (hd : sd q = .ok rd) :
    ask_assistant ⟨sd, qc, llm, doc_first⟩ nd te fmt q =
    match llm (synthesis_prompt q rd "") with
    | .error e => .error e
    | .ok resp =>
        .ok { response := resp,
              timing := { orchestrator_analyze := nd "analyze",
                          doc_search := nd "doc_search", code_query := 0,
                          combine := nd "combine", total := te },
              events := [("Orchestrator", "analyzing", "Analyzing query..."),
                ("Orchestrator", "routing", "Will query: doc_search"),
                ("Doc Search Agent", "running", "Searching documentation..."),
                ("Doc Search Agent", "complete", "Documentation retrieved"),
                ("Orchestrator", "combining", "Synthesizing response..."),
                ("Orchestrator", "complete", "Response generated in " ++ fmt ++ "s")] } := by
  cases hl : llm (synthesis_prompt q rd "") <;>
    simp [ask_assistant, stream, run_node, analyze_node, create_orchestrator_agent, END,
      route_to_agents, h, hd, hl, combine_results, call_doc_search, List.lookup, Bind.bind,
      Except.bind, Pure.pure, Except.pure, initial_state, process_event, String.intercalate,
      String.intercalate.go]

theorem ask_assistant_code_only_llm (sd qc llm : String → Except String String)
    (doc_first : Bool) (nd : String → ℚ) (te : ℚ) (fmt : String) (q rc : String)
    (h : analyze_query q = ["code_query"]) (hc : qc q = .ok rc) :
    ask_assistant ⟨sd, qc, llm, doc_first⟩ nd te fmt q =
    match llm (synthesis_prompt q "" rc) with
    | .error e => .error e
    | .ok resp =>
        .ok { response := resp,
              timing := { orchestrator_analyze := nd "analyze",
                          doc_search := 0, code_query := nd "code_query",
                          combine := nd "combine", total := te },
              events := [("Orchestrator", "analyzing", "Analyzing query..."),
                ("Orchestrator", "routing", "Will query: code_query"),
                ("Code Query Agent", "running", "Querying code snippets..."),
                ("Code Query Agent", "complete", "Code snippets retrieved"),
                ("Orchestrator", "combining", "Synthesizing response..."),
                ("Orchestrator", "complete", "Response generated in " ++ fmt ++ "s")] } := by
  cases hl : llm (synthesis_prompt q "" rc) <;>
    simp [ask_assistant, stream, run_node, analyze_node, create_orchestrator_agent, END,
      route_to_agents, h, hc, hl, combine_results, call_code_query, List.lookup, Bind.bind,
      Except.bind, Pure.pure, Except.pure, initial_state, process_event, String.intercalate,
      String.intercalate.go]

theorem sub_start (x t : List Char) : x <:+: x ++ t := ⟨[], t, by simp⟩

theorem sub_cons_right (x s t : List Char) (h : x <:+: t) : x <:+: s ++ t := by
  obtain ⟨u, v, rfl⟩ := h
  exact ⟨s ++ u, v, by simp⟩

set_option maxRecDepth 8192 in
theorem synthesis_prompt_parts (q d c : String) :
    q.data <:+: (synthesis_prompt q d c).data ∧
    (d = "" → ("No documentation found.").data <:+: (synthesis_prompt q d c).data) ∧
    (d ≠ "" → d.data <:+: (synthesis_prompt q d c).data) ∧
    (c = "" → ("No code examples found.").data <:+: (synthesis_prompt q d c).data) ∧
    (c ≠ "" → c.data <:+: (synthesis_prompt q d c).data) := by
  refine ⟨?_, ?_, ?_, ?_, ?_⟩
  · simp only [synthesis_prompt, String.data_append, List.append_assoc]
    exact sub_cons_right _ _ _ (sub_start _ _)
  · intro hd
    simp only [synthesis_prompt, hd, if_pos, String.data_append, List.append_assoc]
    exact sub_cons_right _ _ _ (sub_cons_right _ _ _ (sub_cons_right _ _ _ (sub_start _ _)))
  · intro hd
    simp only [synthesis_prompt, if_neg hd, String.data_append, List.append_assoc]
    exact sub_cons_right _ _ _ (sub_cons_right _ _ _ (sub_cons_right _ _ _ (sub_start _ _)))
  · intro hc
    simp only [synthesis_prompt, hc, if_pos, String.data_append, List.append_assoc]
    exact sub_cons_right _ _ _ (sub_cons_right _ _ _ (sub_cons_right _ _ _
      (sub_cons_right _ _ _ (sub_cons_right _ _ _ (sub_start _ _)))))
  · intro hc
    simp only [synthesis_prompt, if_neg hc, String.data_append, List.append_assoc]
    exact sub_cons_right _ _ _ (sub_cons_right _ _ _ (sub_cons_right _ _ _
      (sub_cons_right _ _ _ (sub_cons_right _ _ _ (sub_start _ _)))))

/-! ### Claims -/

/-- C1 counterexample: the claim says a backend exception on a
single-member routing decision is caught and recorded, never propagated,
and the run still returns a result.  At the concrete query `"explain"`
(routed to `doc_search` alone) with a raising `search_docs`, the run entry
point instead aborts with the backend's exception. -/
theorem C1_counterexample :
    ask_assistant
      ⟨fun _ => .error "boom", fun _ => .ok "snippets", fun _ => .ok "answer", true⟩
      (fun _ => 0) 0 "0.0" "explain" = .error "boom" := by rfl

/-- C1 (amended): for every run whose routing decision has exactly one
member, if the invoked backend agent raises an exception, that exception is
NOT caught: the single-agent nodes call the backend with no try/except, so
the exception propagates out of the run entry point and the run aborts
without returning a response/timing result.  (Only the parallel path
catches backend exceptions.) -/
theorem C1_single_agent_failure_propagates
    (sd qc llm : String → Except String String) (doc_first : Bool)
    (nd : String → ℚ) (te : ℚ) (fmt : String) (q e : String) :
    (analyze_query q = ["doc_search"] → sd q = .error e →
      ask_assistant ⟨sd, qc, llm, doc_first⟩ nd te fmt q = .error e) ∧
    (analyze_query q = ["code_query"] → qc q = .error e →
      ask_assistant ⟨sd, qc, llm, doc_first⟩ nd te fmt q = .error e) :=
  ⟨fun h hd => ask_assistant_doc_error sd qc llm doc_first nd te fmt q e h hd,
   fun h hc => ask_assistant_code_error sd qc llm doc_first nd te fmt q e h hc⟩

/-- C1 witness: the amended claim at the concrete doc-only query
`"tutorial"` with a raising `search_docs`. -/
theorem C1_witness :
    ask_assistant
      ⟨fun _ => .error "netfail", fun _ => .ok "snippets", fun _ => .ok "answer", false⟩
      (fun _ => 0) 0 "0.0" "tutorial" = .error "netfail" :=
  (C1_single_agent_failure_propagates (fun _ => .error "netfail") (fun _ => .ok "snippets")
      (fun _ => .ok "answer") false (fun _ => 0) 0 "0.0" "tutorial" "netfail").1
    (by decide) rfl

/-- C2: for the two-member routing decision and any combination of backend
successes and failures, in either completion order, the parallel node
produces exactly the doc agent's success text (or `""` on its failure) in
`doc_results` and exactly the code agent's success text (or `""` on its
failure) in `code_results`: one outcome slot per member, and a failure of
one agent never removes or overwrites the other agent's successful result. -/
theorem C2_parallel_preserves_each_outcome
    (sd qc : String → Except String String) (doc_first : Bool)
    (msgs : List Message) (q d0 c0 f0 : String) :
    ((call_agents_parallel sd qc doc_first
        ⟨msgs, q, d0, c0, f0, ["doc_search", "code_query"]⟩).1.doc_results =
      match sd q with | .ok r => r | .error _ => "") ∧
    ((call_agents_parallel sd qc doc_first
        ⟨msgs, q, d0, c0, f0, ["doc_search", "code_query"]⟩).1.code_results =
      match qc q with | .ok r => r | .error _ => "") := by
  cases doc_first <;> cases hd : sd q <;> cases hc : qc q <;>
    simp [call_agents_parallel, hd, hc]

/-- C3: every query that contains no keyword from the explanation set and
no keyword from the code-example set is routed to both agents, and for
every query whatsoever the returned `agents_to_call` list is non-empty. -/
theorem C3_fallback_both_and_nonempty (q : String) :
    ((∀ w ∈ doc_keywords, pyContains (pyLower q) w = false) →
     (∀ w ∈ code_keywords, pyContains (pyLower q) w = false) →
     analyze_query q = ["doc_search", "code_query"]) ∧
    analyze_query q ≠ [] := by
  constructor
  · intro h1 h2
    have hd : doc_keywords.any (fun word => pyContains (pyLower q) word) = false := by
      simp only [List.any_eq_false]
      intro w hw
      simp [h1 w hw]
    have hc : code_keywords.any (fun word => pyContains (pyLower q) word) = false := by
      simp only [List.any_eq_false]
      intro w hw
      simp [h2 w hw]
    simp [analyze_query, hd, hc]
  · simp only [analyze_query]
    cases hd : doc_keywords.any (fun word => pyContains (pyLower q) word) <;>
      cases hc : code_keywords.any (fun word => pyContains (pyLower q) word) <;>
        simp

/-- C3 witness: the empty query and a whitespace-only query. -/
theorem C3_witness :
    analyze_query "" = ["doc_search", "code_query"] ∧ analyze_query "   " ≠ [] :=
  ⟨(C3_fallback_both_and_nonempty "").1 (by decide) (by decide),
   (C3_fallback_both_and_nonempty "   ").2⟩

/-- C4: out of the classify stage, an empty routing decision routes
directly to `combine` (synthesis), a one-member decision to that member's
own stage, and a two-member decision to `parallel`; in the compiled graph
every agent stage (`parallel`, `doc_search`, `code_query`) has an
unconditional edge to `combine`, and `combine` an unconditional edge to the
terminal `END`. -/
theorem C4_routing_and_edges :
    (∀ msgs q d c f, route_to_agents ⟨msgs, q, d, c, f, []⟩ = "combine") ∧
    (∀ msgs q d c f a, route_to_agents ⟨msgs, q, d, c, f, [a]⟩ = a) ∧
    (∀ msgs q d c f a b, route_to_agents ⟨msgs, q, d, c, f, [a, b]⟩ = "parallel") ∧
    create_orchestrator_agent.entry_point = "analyze" ∧
    create_orchestrator_agent.conditional_source = "analyze" ∧
    create_orchestrator_agent.conditional_mapping.lookup "parallel" = some "parallel" ∧
    create_orchestrator_agent.conditional_mapping.lookup "doc_search" = some "doc_search" ∧
    create_orchestrator_agent.conditional_mapping.lookup "code_query" = some "code_query" ∧
    create_orchestrator_agent.conditional_mapping.lookup "combine" = some "combine" ∧
    create_orchestrator_agent.edges.lookup "parallel" = some "combine" ∧
    create_orchestrator_agent.edges.lookup "doc_search" = some "combine" ∧
    create_orchestrator_agent.edges.lookup "code_query" = some "combine" ∧
    create_orchestrator_agent.edges.lookup "combine" = some END :=
  ⟨fun _ _ _ _ _ => rfl, fun _ _ _ _ _ _ => rfl, fun _ _ _ _ _ _ _ => rfl,
   rfl, rfl, rfl, rfl, rfl, rfl, rfl, rfl, rfl, rfl⟩

/-- C5: the classifier is a pure function of the query (it is a Lean
function, so determinism is structural) and case-insensitive: classifying
the upper-cased form of any query yields the same decision. -/
theorem C5_classifier_case_insensitive (q : String) :
    analyze_query (pyUpper q) = analyze_query q := by
  simp only [analyze_query, pyLower_pyUpper]

/-- C6: for every run with an observer and a two-member routing decision,
whatever the backends do and whichever parallel branch finishes first, the
observer's event sequence is exactly: analyze, routing, then the two
backend agents' events as a post-join block (running/running/
complete/complete), then synthesis, then completion — so stage completions
arrive in the strict order Classify, ParallelAgents, Synthesize,
independent of internal completion order. -/
theorem C6_observer_event_order
    (sd qc : String → Except String String) (llm : String → String)
    (doc_first : Bool) (nd : String → ℚ) (te : ℚ) (fmt : String) (q : String)
    (h : analyze_query q = ["doc_search", "code_query"]) :
    ∃ r : AskResult,
      ask_assistant ⟨sd, qc, fun p => .ok (llm p), doc_first⟩ nd te fmt q = .ok r ∧
      r.events = [("Orchestrator", "analyzing", "Analyzing query..."),
        ("Orchestrator", "routing", "Will query: doc_search, code_query"),
        ("Doc Search Agent", "running", "Searching documentation..."),
        ("Code Query Agent", "running", "Querying code snippets..."),
        ("Doc Search Agent", "complete", "Documentation retrieved"),
        ("Code Query Agent", "complete", "Code snippets retrieved"),
        ("Orchestrator", "combining", "Synthesizing response..."),
        ("Orchestrator", "complete", "Response generated in " ++ fmt ++ "s")] :=
  ⟨_, ask_assistant_both sd qc llm doc_first nd te fmt q h, rfl⟩

/-- C6 witness: the empty query (routed to both agents), with a failing doc
backend and the code-first completion order. -/
theorem C6_witness :
    ∃ r : AskResult,
      ask_assistant ⟨fun _ => .error "netfail", fun _ => .ok "snippets",
          fun p => .ok ((fun _ => "answer") p), false⟩ (fun _ => 1) 2 "2.0" "" = .ok r ∧
      r.events = [("Orchestrator", "analyzing", "Analyzing query..."),
        ("Orchestrator", "routing", "Will query: doc_search, code_query"),
        ("Doc Search Agent", "running", "Searching documentation..."),
        ("Code Query Agent", "running", "Querying code snippets..."),
        ("Doc Search Agent", "complete", "Documentation retrieved"),
        ("Code Query Agent", "complete", "Code snippets retrieved"),
        ("Orchestrator", "combining", "Synthesizing response..."),
        ("Orchestrator", "complete", "Response generated in " ++ "2.0" ++ "s")] :=
  C6_observer_event_order (fun _ => .error "netfail") (fun _ => .ok "snippets")
    (fun _ => "answer") false (fun _ => 1) 2 "2.0" "" (by decide)

/-- C7: the synthesis node builds exactly one prompt and issues exactly one
LLM call on it (first conjunct: `combine_results` is precisely that one
call on `synthesis_prompt`); the prompt embeds the original query and the
text of each non-empty agent result, and for each agent whose slot is empty
(absent or failed — failures leave the slot `""`) it contains the fixed
placeholder "No documentation found." / "No code examples found." instead
of any raw error text. -/
theorem C7_synthesis_prompt_content (llm : String → Except String String)
    (st : OrchestratorState) (q d c : String) :
    (combine_results llm st =
      match llm (synthesis_prompt st.query st.doc_results st.code_results) with
      | .ok response =>
          .ok { st with
                final_response := response
                messages := st.messages ++ [Message.ai response] }
      | .error e => .error e) ∧
    q.data <:+: (synthesis_prompt q d c).data ∧
    (d = "" → ("No documentation found.").data <:+: (synthesis_prompt q d c).data) ∧
    (d ≠ "" → d.data <:+: (synthesis_prompt q d c).data) ∧
    (c = "" → ("No code examples found.").data <:+: (synthesis_prompt q d c).data) ∧
    (c ≠ "" → c.data <:+: (synthesis_prompt q d c).data) := by
  refine ⟨?_, synthesis_prompt_parts q d c⟩
  cases hr : llm (synthesis_prompt st.query st.doc_results st.code_results) <;>
    simp [combine_results, Bind.bind, Except.bind, Pure.pure, Except.pure, hr]

/-- C7 witness: a run with an empty doc slot and a non-empty code slot, and
one with the opposite shape. -/
theorem C7_witness :
    ("No documentation found.").data <:+: (synthesis_prompt "hi" "" "ok").data ∧
    ("ok").data <:+: (synthesis_prompt "hi" "" "ok").data ∧
    ("docs").data <:+: (synthesis_prompt "q2" "docs" "").data ∧
    ("No code examples found.").data <:+: (synthesis_prompt "q2" "docs" "").data :=
  ⟨(C7_synthesis_prompt_content (fun p => .ok p) (initial_state "x") "hi" "" "ok").2.2.1 rfl,
   (C7_synthesis_prompt_content (fun p => .ok p) (initial_state "x") "hi" "" "ok").2.2.2.2.2
     (by decide),
   (C7_synthesis_prompt_content (fun p => .ok p) (initial_state "x") "q2" "docs" "").2.2.2.1
     (by decide),
   (C7_synthesis_prompt_content (fun p => .ok p) (initial_state "x") "q2" "docs" "").2.2.2.2.1
     rfl⟩

/-- C8: for every run with arbitrary (failing or succeeding) backends that
takes the parallel path and returns a timing report, the single measured
duration of the `parallel` node is attributed to both agents by even split
(each timing entry equals half that duration); for every completed run that
takes a single-agent path, the non-invoked agent's timing entry remains
zero. -/
theorem C8_timing_split_and_zero
    (sd qc llm : String → Except String String) (doc_first : Bool)
    (nd : String → ℚ) (te : ℚ) (fmt : String) (q : String) :
    (analyze_query q = ["doc_search", "code_query"] →
      ∀ r : AskResult, ask_assistant ⟨sd, qc, llm, doc_first⟩ nd te fmt q = .ok r →
        r.timing.doc_search = nd "parallel" / 2 ∧ r.timing.code_query = nd "parallel" / 2) ∧
    (analyze_query q = ["code_query"] →
      ∀ r : AskResult, ask_assistant ⟨sd, qc, llm, doc_first⟩ nd te fmt q = .ok r →
        r.timing.doc_search = 0) ∧
    (analyze_query q = ["doc_search"] →
      ∀ r : AskResult, ask_assistant ⟨sd, qc, llm, doc_first⟩ nd te fmt q = .ok r →
        r.timing.code_query = 0) := by
  refine ⟨?_, ?_, ?_⟩
  · intro h r hr
    rw [ask_assistant_both_llm sd qc llm doc_first nd te fmt q h] at hr
    rcases hl : llm (synthesis_prompt q
        ((call_agents_parallel sd qc doc_first
          { messages := [Message.human q], query := q, doc_results := "",
            code_results := "", final_response := "",
            agents_to_call := ["doc_search", "code_query"] }).1.doc_results)
        ((call_agents_parallel sd qc doc_first
          { messages := [Message.human q], query := q, doc_results := "",
            code_results := "", final_response := "",
            agents_to_call := ["doc_search", "code_query"] }).1.code_results)) with e | resp <;>
      rw [hl] at hr
    · simp at hr
    · simp only [Except.ok.injEq] at hr
      subst hr
      exact ⟨rfl, rfl⟩
  · intro h r hr
    rcases hq : qc q with e | rc
    · rw [ask_assistant_code_error sd qc llm doc_first nd te fmt q e h hq] at hr
      simp at hr
    · rw [ask_assistant_code_only_llm sd qc llm doc_first nd te fmt q rc h hq] at hr
      rcases hl : llm (synthesis_prompt q "" rc) with e2 | resp <;> rw [hl] at hr
      · simp at hr
      · simp only [Except.ok.injEq] at hr
        subst hr
        rfl
  · intro h r hr
    rcases hq : sd q with e | rd
    · rw [ask_assistant_doc_error sd qc llm doc_first nd te fmt q e h hq] at hr
      simp at hr
    · rw [ask_assistant_doc_only_llm sd qc llm doc_first nd te fmt q rd h hq] at hr
      rcases hl : llm (synthesis_prompt q rd "") with e2 | resp <;> rw [hl] at hr
      · simp at hr
      · simp only [Except.ok.injEq] at hr
        subst hr
        rfl

/-- C8 witness: a parallel run with a failing doc backend (empty query
routes to both agents and the run still completes), a code-only run (query
`"code"`), and a doc-only run (query `"explain"`) with a failing code
backend. -/
theorem C8_witness :
    (∃ r : AskResult,
      ask_assistant ⟨fun _ => .error "E", fun _ => .ok "C", fun _ => .ok "R", true⟩
        (fun _ => 4) 9 "9.0" "" = .ok r ∧
      r.timing.doc_search = (4 : ℚ) / 2 ∧ r.timing.code_query = (4 : ℚ) / 2) ∧
    (∃ r : AskResult,
      ask_assistant ⟨fun _ => .error "E", fun _ => .ok "C", fun _ => .ok "R", true⟩
        (fun _ => 4) 9 "9.0" "code" = .ok r ∧ r.timing.doc_search = 0) ∧
    (∃ r : AskResult,
      ask_assistant ⟨fun _ => .ok "D", fun _ => .error "E", fun _ => .ok "R", false⟩
        (fun _ => 4) 9 "9.0" "explain" = .ok r ∧ r.timing.code_query = 0) :=
  ⟨⟨_, rfl, (C8_timing_split_and_zero (fun _ => .error "E") (fun _ => .ok "C")
      (fun _ => .ok "R") true (fun _ => 4) 9 "9.0" "").1 (by decide) _ rfl⟩,
   ⟨_, rfl, (C8_timing_split_and_zero (fun _ => .error "E") (fun _ => .ok "C")
      (fun _ => .ok "R") true (fun _ => 4) 9 "9.0" "code").2.1 (by decide) _ rfl⟩,
   ⟨_, rfl, (C8_timing_split_and_zero (fun _ => .ok "D") (fun _ => .error "E")
      (fun _ => .ok "R") false (fun _ => 4) 9 "9.0" "explain").2.2 (by decide) _ rfl⟩⟩

/-- C9: the compiled workflow graph is built at most once: a call with an
empty cache builds it and fills the cache, a call with a filled cache
returns exactly the cached object and leaves the cache untouched, and any
non-zero number of successive calls starting from the empty cache leaves
the cache permanently holding the one constructed graph. -/
theorem C9_cached_graph :
    get_orchestrator_agent none = (create_orchestrator_agent, some create_orchestrator_agent) ∧
    (∀ g, get_orchestrator_agent (some g) = (g, some g)) ∧
    (∀ n, 1 ≤ n → get_calls n none = some create_orchestrator_agent) ∧
    (∀ n g, get_calls n (some g) = some g) := by
  have hsome : ∀ n g, get_calls n (some g) = some g := by
    intro n
    induction n with
    | zero => intro g; rfl
    | succ m ih => intro g; simpa [get_calls, get_orchestrator_agent] using ih g
  refine ⟨rfl, fun g => rfl, ?_, hsome⟩
  intro n hn
  cases n with
  | zero => exact absurd hn (by decide)
  | succ m => simp [get_calls, get_orchestrator_agent, hsome]

/-- C9 witness: three successive calls starting from the empty cache. -/
theorem C9_witness : get_calls 3 none = some create_orchestrator_agent :=
  C9_cached_graph.2.2.1 3 (by decide)

/-- C10: in the parallel path a backend agent's failure — of either agent —
is recorded only as a span attribute; the returned workflow state is
exactly the state that agent succeeding with empty output would produce
(its result slot is left `""`), so every downstream consumer of the state
cannot distinguish the two, and the synthesis prompt built from the failed
run contains the same "No documentation found." / "No code examples
found." placeholder for that agent. -/
theorem C10_failure_equals_empty_success
    (sd qc : String → Except String String) (doc_first : Bool)
    (st : OrchestratorState) (e : String) :
    ((call_agents_parallel (fun _ => .error e) qc doc_first st).1 =
        (call_agents_parallel (fun _ => .ok "") qc doc_first st).1 ∧
      (call_agents_parallel (fun _ => .error e) qc doc_first st).1.doc_results = "" ∧
      ("doc_search" ∈ st.agents_to_call →
        ("doc_search.error", e) ∈ (call_agents_parallel (fun _ => .error e) qc doc_first st).2) ∧
      ("No documentation found.").data <:+:
        (synthesis_prompt (call_agents_parallel (fun _ => .error e) qc doc_first st).1.query
          (call_agents_parallel (fun _ => .error e) qc doc_first st).1.doc_results
          (call_agents_parallel (fun _ => .error e) qc doc_first st).1.code_results).data) ∧
    ((call_agents_parallel sd (fun _ => .error e) doc_first st).1 =
        (call_agents_parallel sd (fun _ => .ok "") doc_first st).1 ∧
      (call_agents_parallel sd (fun _ => .error e) doc_first st).1.code_results = "" ∧
      ("code_query" ∈ st.agents_to_call →
        ("code_query.error", e) ∈ (call_agents_parallel sd (fun _ => .error e) doc_first st).2) ∧
      ("No code examples found.").data <:+:
        (synthesis_prompt (call_agents_parallel sd (fun _ => .error e) doc_first st).1.query
          (call_agents_parallel sd (fun _ => .error e) doc_first st).1.doc_results
          (call_agents_parallel sd (fun _ => .error e) doc_first st).1.code_results).data) := by
  have hempty1 : (call_agents_parallel (fun _ => .error e) qc doc_first st).1.doc_results = "" := by
    by_cases hd : "doc_search" ∈ st.agents_to_call <;>
      by_cases hc2 : "code_query" ∈ st.agents_to_call <;>
        cases doc_first <;> cases hq : qc st.query <;>
          simp [call_agents_parallel, hd, hc2, hq]
  have hstate1 : (call_agents_parallel (fun _ => .error e) qc doc_first st).1 =
      (call_agents_parallel (fun _ => .ok "") qc doc_first st).1 := by
    by_cases hd : "doc_search" ∈ st.agents_to_call <;>
      by_cases hc2 : "code_query" ∈ st.agents_to_call <;>
        cases doc_first <;> cases hq : qc st.query <;>
          simp [call_agents_parallel, hd, hc2, hq]
  have hattr1 : "doc_search" ∈ st.agents_to_call →
      ("doc_search.error", e) ∈ (call_agents_parallel (fun _ => .error e) qc doc_first st).2 := by
    intro hd
    by_cases hc2 : "code_query" ∈ st.agents_to_call <;>
      cases doc_first <;> cases hq : qc st.query <;>
        simp [call_agents_parallel, hd, hc2, hq]
  have hempty2 : (call_agents_parallel sd (fun _ => .error e) doc_first st).1.code_results = "" := by
    by_cases hd : "doc_search" ∈ st.agents_to_call <;>
      by_cases hc2 : "code_query" ∈ st.agents_to_call <;>
        cases doc_first <;> cases hq : sd st.query <;>
          simp [call_agents_parallel, hd, hc2, hq]
  have hstate2 : (call_agents_parallel sd (fun _ => .error e) doc_first st).1 =
      (call_agents_parallel sd (fun _ => .ok "") doc_first st).1 := by
    by_cases hd : "doc_search" ∈ st.agents_to_call <;>
      by_cases hc2 : "code_query" ∈ st.agents_to_call <;>
        cases doc_first <;> cases hq : sd st.query <;>
          simp [call_agents_parallel, hd, hc2, hq]
  have hattr2 : "code_query" ∈ st.agents_to_call →
      ("code_query.error", e) ∈ (call_agents_parallel sd (fun _ => .error e) doc_first st).2 := by
    intro hc2
    by_cases hd : "doc_search" ∈ st.agents_to_call <;>
      cases doc_first <;> cases hq : sd st.query <;>
        simp [call_agents_parallel, hd, hc2, hq]
  refine ⟨⟨hstate1, hempty1, hattr1, ?_⟩, ⟨hstate2, hempty2, hattr2, ?_⟩⟩
  · rw [hempty1]
    exact (synthesis_prompt_parts _ "" _).2.1 rfl
  · rw [hempty2]
    exact (synthesis_prompt_parts _ _ "").2.2.2.1 rfl

/-- C10 witness: both agents routed; a failing doc backend with message
`"oops"` under code-first completion order, and a failing code backend with
the same message under doc-first completion order. -/
theorem C10_witness :
    ("doc_search.error", "oops") ∈
      (call_agents_parallel (fun _ => .error "oops") (fun _ => .ok "snips") false
        ⟨[], "q", "", "", "", ["doc_search", "code_query"]⟩).2 ∧
    ("code_query.error", "oops") ∈
      (call_agents_parallel (fun _ => .ok "docs") (fun _ => .error "oops") true
        ⟨[], "q", "", "", "", ["doc_search", "code_query"]⟩).2 :=
  ⟨(C10_failure_equals_empty_success (fun _ => .ok "docs") (fun _ => .ok "snips") false
      ⟨[], "q", "", "", "", ["doc_search", "code_query"]⟩ "oops").1.2.2.1 (by decide),
   (C10_failure_equals_empty_success (fun _ => .ok "docs") (fun _ => .ok "snips") true
      ⟨[], "q", "", "", "", ["doc_search", "code_query"]⟩ "oops").2.2.2.1 (by decide)⟩

end Orchestrator
